import Mathlib

/-!
Verification of the `SessionManager` progress tracker of `static/js/main.js`.

The tracker is modelled as a pure state-transition system. The browser state
touched by `SessionManager` (the `window.APP.pollingInterval` handle, the
progress bar, the status text, the step-indicator elements, toasts, the
upload form) is collected in one record `State`; each JS method becomes a
function `State → ... → State`. `setInterval`/`clearInterval` are modelled by
a table of active timers plus a fresh-handle counter; the recurring poll is
modelled by a `tick` that fires only while a timer handle is installed.
Invocations of the terminal handlers `onProcessingComplete` /
`onProcessingError` are counted by instrumentation fields `completeCount` /
`errorCount` so that "invoked exactly once" becomes arithmetic.
-/

namespace PREVC

/-- CSS classification of one step-indicator element (`completed`/`current`
classes on the element; `pending` = neither class present). -/
inductive StepClass where
  | pending
  | current
  | completed
deriving Repr, DecidableEq

/-- One active `setInterval` timer: its numeric handle and the session id the
scheduled closure polls. -/
structure Timer where
  id : Nat
  session : String
deriving Repr, DecidableEq

/-- The JSON payload of `GET /status/{sessionId}` as used by
`handleStatusUpdate`: the `status` string and the `session_id`. -/
structure StatusData where
  status : String
  session_id : String
deriving Repr, DecidableEq

/-- Client state touched by `SessionManager`: `window.APP.pollingInterval`,
the timer environment, and the DOM pieces the methods mutate. The fields
`completeCount`/`errorCount` instrument the number of invocations of
`onProcessingComplete`/`onProcessingError`. -/
structure State where
  pollingInterval : Option Nat
  timers : List Timer
  nextTimerId : Nat
  progress : Nat
  progressText : String
  statusText : String
  steps : List StepClass
  barDanger : Bool
  barAnimated : Bool
  progressShown : Bool
  resultShown : Bool
  sessionIdText : String
  formEnabled : Bool
  toasts : List (String × String)
  downloadSession : Option String
  completeCount : Nat
  errorCount : Nat
deriving Repr, DecidableEq

/-- Page-load state: no timer installed (`window.APP.pollingInterval: null`),
progress bar at 0, all step indicators pending. Timer handles start at 1, as
browser `setInterval` handles are positive. -/
def initState : State :=
  { pollingInterval := none
    timers := []
    nextTimerId := 1
    progress := 0
    progressText := ""
    statusText := ""
    steps := [.pending, .pending, .pending, .pending, .pending, .pending]
    barDanger := false
    barAnimated := true
    progressShown := true
    resultShown := false
    sessionIdText := ""
    formEnabled := true
    toasts := []
    downloadSession := none
    completeCount := 0
    errorCount := 0 }

/-- The fixed step catalog hard-coded in `updateStepIndicators`
(element id, threshold). -/
def stepsCatalog : List (String × Nat) :=
  [("step-upload", 20), ("step-transcription", 35), ("step-ocr", 50),
   ("step-correlation", 65), ("step-ai", 80), ("step-complete", 100)]

/-- The per-step branch of `updateStepIndicators`:
`percent >= threshold` → completed; `percent >= threshold - 15` → current;
otherwise the element's classes are left unchanged (there is no else branch
in the source). -/
def stepUpdate (percent threshold : Nat) (c : StepClass) : StepClass :=
  if threshold ≤ percent then .completed
  else if threshold - 15 ≤ percent then .current
  else c

/-- The `steps.forEach` loop of `updateStepIndicators`, acting on the list of
current step classifications (aligned with `stepsCatalog`). -/
def runStepIndicators (percent : Nat) (cs : List StepClass) : List StepClass :=
  List.zipWith (fun st c => stepUpdate percent st.2 c) stepsCatalog cs

/-- `SessionManager.updateStepIndicators(percent)`. -/
def updateStepIndicators (s : State) (percent : Nat) : State :=
  { s with steps := runStepIndicators percent s.steps }

/-- `SessionManager.updateProgress(percent, text)`: sets the bar width and
text, the status text, then calls `updateStepIndicators(percent)`. -/
def updateProgress (s : State) (percent : Nat) (text : String) : State :=
  updateStepIndicators
    { s with progress := percent
             progressText := toString percent ++ "%"
             statusText := text } percent

/-- `SessionManager.stopPolling()`: if `window.APP.pollingInterval` is set,
`clearInterval` it and null the handle; otherwise do nothing. -/
def stopPolling (s : State) : State :=
  match s.pollingInterval with
  | some h => { s with timers := s.timers.filter (fun t => t.id ≠ h)
                       pollingInterval := none }
  | none => s

/-- `SessionManager.startPolling(sessionId)`: `clearInterval` the previous
timer if one is installed, then install a fresh `setInterval` timer polling
`sessionId` and store its handle. -/
def startPolling (s : State) (sessionId : String) : State :=
  let s1 :=
    match s.pollingInterval with
    | some h => { s with timers := s.timers.filter (fun t => t.id ≠ h) }
    | none => s
  { s1 with timers := s1.timers ++ [⟨s1.nextTimerId, sessionId⟩]
            pollingInterval := some s1.nextTimerId
            nextTimerId := s1.nextTimerId + 1 }

/-- `SessionManager.onProcessingComplete(data)`: stop polling, swap the
progress section for the result section, show the truncated session id, wire
the download buttons, toast success. -/
def onProcessingComplete (s : State) (data : StatusData) : State :=
  let s1 := stopPolling s
  { s1 with progressShown := false
            resultShown := true
            sessionIdText := data.session_id.take 8
            downloadSession := some data.session_id
            toasts := s1.toasts ++ [("Documentação gerada com sucesso!", "success")]
            completeCount := s1.completeCount + 1 }

/-- `SessionManager.onProcessingError(data)`: stop polling, recolor the bar
to the danger state (dropping the striped/animated classes), set the error
status text, toast the error, re-enable the upload form. It never calls
`updateProgress`. -/
def onProcessingError (s : State) (_data : StatusData) : State :=
  let s1 := stopPolling s
  { s1 with barAnimated := false
            barDanger := true
            statusText := "Erro no processamento"
            toasts := s1.toasts ++ [("Erro durante o processamento. Tente novamente.", "danger")]
            formEnabled := true
            errorCount := s1.errorCount + 1 }

/-- `SessionManager.handleStatusUpdate(data)`: the four-way dispatch on
`data.status`; any other status matches no branch and does nothing. -/
def handleStatusUpdate (s : State) (data : StatusData) : State :=
  if data.status = "uploading" then
    updateProgress s 20 "Upload concluído"
  else if data.status = "processing" then
    updateProgress s 60 "Processando dados..."
  else if data.status = "completed" then
    onProcessingComplete (updateProgress s 100 "Processamento concluído!") data
  else if data.status = "error" then
    onProcessingError s data
  else
    s

/-- `SessionManager.checkStatus(sessionId)`: the outcome of the one status
fetch is passed in as `resp`. On success the JSON is handed to
`handleStatusUpdate`; on transport/decode failure the `.catch` branch logs
and toasts without touching the timer. -/
def checkStatus (s : State) (resp : Except String StatusData) : State :=
  match resp with
  | Except.ok data => handleStatusUpdate s data
  | Except.error _ => { s with toasts := s.toasts ++ [("Erro ao verificar status", "danger")] }

/-- One interval firing: the scheduled closure runs `checkStatus` only while
a polling timer handle is installed. -/
def tick (s : State) (resp : Except String StatusData) : State :=
  if s.pollingInterval.isSome then checkStatus s resp else s

/-- A sequence of interval firings with the given fetch outcomes. -/
def run (s : State) (resps : List (Except String StatusData)) : State :=
  resps.foldl tick s

/-- Timer-table sanity: the installed handle (if any) is the only live timer.
Holds at `initState` and is preserved by `startPolling`/`stopPolling`. -/
def wellFormedTimers (s : State) : Prop :=
  (s.pollingInterval = none → s.timers = []) ∧
  (∀ h, s.pollingInterval = some h → ∀ t ∈ s.timers, t.id = h)

/-! ### Helper lemmas -/

theorem stopPolling_pollingInterval (s : State) :
    (stopPolling s).pollingInterval = none := by
  unfold stopPolling
  cases h : s.pollingInterval <;> simp [h]

theorem stopPolling_eq_of_none (s : State) (h : s.pollingInterval = none) :
    stopPolling s = s := by
  unfold stopPolling
  rw [h]

theorem stopPolling_progress (s : State) : (stopPolling s).progress = s.progress := by
  unfold stopPolling; cases s.pollingInterval <;> rfl

theorem stopPolling_steps (s : State) : (stopPolling s).steps = s.steps := by
  unfold stopPolling; cases s.pollingInterval <;> rfl

theorem stopPolling_completeCount (s : State) :
    (stopPolling s).completeCount = s.completeCount := by
  unfold stopPolling; cases s.pollingInterval <;> rfl

theorem stopPolling_errorCount (s : State) :
    (stopPolling s).errorCount = s.errorCount := by
  unfold stopPolling; cases s.pollingInterval <;> rfl

theorem stopPolling_progressText (s : State) :
    (stopPolling s).progressText = s.progressText := by
  unfold stopPolling; cases s.pollingInterval <;> rfl

/-- Unfolding of the `completed` branch of `handleStatusUpdate`. -/
theorem handle_completed (s : State) (sid : String) :
    handleStatusUpdate s ⟨"completed", sid⟩ =
      onProcessingComplete (updateProgress s 100 "Processamento concluído!")
        ⟨"completed", sid⟩ := rfl

/-- Unfolding of the `error` branch of `handleStatusUpdate`. -/
theorem handle_error (s : State) (sid : String) :
    handleStatusUpdate s ⟨"error", sid⟩ = onProcessingError s ⟨"error", sid⟩ := rfl

/-- Unfolding of the `processing` branch of `handleStatusUpdate`. -/
theorem handle_processing (s : State) (sid : String) :
    handleStatusUpdate s ⟨"processing", sid⟩ =
      updateProgress s 60 "Processando dados..." := rfl

/-- With no timer installed, interval firings do nothing. -/
theorem run_of_none (s : State) (h : s.pollingInterval = none)
    (resps : List (Except String StatusData)) : run s resps = s := by
  induction resps with
  | nil => rfl
  | cons r rs ih =>
    show run (tick s r) rs = s
    have ht : tick s r = s := by unfold tick; rw [h]; rfl
    rw [ht, ih]

theorem onProcessingComplete_pollingInterval (s : State) (d : StatusData) :
    (onProcessingComplete s d).pollingInterval = none :=
  stopPolling_pollingInterval s

theorem onProcessingError_pollingInterval (s : State) (d : StatusData) :
    (onProcessingError s d).pollingInterval = none :=
  stopPolling_pollingInterval s

/-! ### Theorems for the claims -/

/-- C9: the step catalog hard-coded in `updateStepIndicators` has strictly
increasing thresholds: each consecutive pair satisfies earlier < later. -/
theorem C9_thresholds_strictly_increasing :
    List.Chain' (fun a b => a < b) (stepsCatalog.map Prod.snd) := by
  simp [stepsCatalog, List.chain'_cons]

/-- C6: for every status other than `uploading`, `processing`, `completed`
and `error`, `handleStatusUpdate` is a no-op: the state is unchanged, so no
progress change, no timer change, no callback, no toast, no error. -/
theorem C6_unknown_status_noop (s : State) (data : StatusData)
    (h1 : data.status ≠ "uploading") (h2 : data.status ≠ "processing")
    (h3 : data.status ≠ "completed") (h4 : data.status ≠ "error") :
    handleStatusUpdate s data = s := by
  unfold handleStatusUpdate
  simp [h1, h2, h3, h4]

/-- Witness for C6 at the concrete unknown status `queued`. -/
theorem C6_unknown_status_noop_witness :
    handleStatusUpdate initState ⟨"queued", "sess"⟩ = initState :=
  C6_unknown_status_noop initState ⟨"queued", "sess"⟩
    (by decide) (by decide) (by decide) (by decide)

/-- C7: a failed poll (`checkStatus` hitting the `.catch` branch) only logs
and toasts: the timer handle and timer table are untouched — so the next
scheduled tick still fires — and no progress, callback-count or step change
occurs. -/
theorem C7_failed_poll_keeps_timer (s : State) (e : String) :
    (checkStatus s (Except.error e)).pollingInterval = s.pollingInterval ∧
    (checkStatus s (Except.error e)).timers = s.timers ∧
    (checkStatus s (Except.error e)).pollingInterval.isSome
      = s.pollingInterval.isSome ∧
    (checkStatus s (Except.error e)).progress = s.progress ∧
    (checkStatus s (Except.error e)).steps = s.steps ∧
    (checkStatus s (Except.error e)).completeCount = s.completeCount ∧
    (checkStatus s (Except.error e)).errorCount = s.errorCount ∧
    (checkStatus s (Except.error e)).toasts
      = s.toasts ++ [("Erro ao verificar status", "danger")] := by
  unfold checkStatus
  exact ⟨rfl, rfl, rfl, rfl, rfl, rfl, rfl, rfl⟩

/-- C8: `stopPolling` with no active timer is a no-op and raises nothing;
with an active timer handle it cancels that timer and clears the handle. -/
theorem C8_stop_safe (s : State) :
    (s.pollingInterval = none → stopPolling s = s) ∧
    (∀ h, s.pollingInterval = some h →
      (stopPolling s).pollingInterval = none ∧
      (stopPolling s).timers = s.timers.filter (fun t => t.id ≠ h)) := by
  constructor
  · exact stopPolling_eq_of_none s
  · intro h hh
    unfold stopPolling
    rw [hh]
    exact ⟨rfl, rfl⟩

/-- Witness for C8: no-op on the idle initial state; cancels the installed
timer after a `startPolling`. -/
theorem C8_stop_safe_witness :
    stopPolling initState = initState ∧
    (stopPolling (startPolling initState "sess")).pollingInterval = none :=
  ⟨(C8_stop_safe initState).1 rfl,
   ((C8_stop_safe (startPolling initState "sess")).2 1 rfl).1⟩

/-- C2: a `completed` update forces progress to 100, invokes
`onProcessingComplete` exactly once (the invocation count rises by exactly 1)
and stops polling; and since the timer is gone, any further interval
firings change nothing, so no further completion invocation occurs. -/
theorem C2_completed_once (s : State) (sid : String)
    (resps : List (Except String StatusData)) :
    (handleStatusUpdate s ⟨"completed", sid⟩).progress = 100 ∧
    (handleStatusUpdate s ⟨"completed", sid⟩).completeCount = s.completeCount + 1 ∧
    (handleStatusUpdate s ⟨"completed", sid⟩).pollingInterval = none ∧
    run (handleStatusUpdate s ⟨"completed", sid⟩) resps
      = handleStatusUpdate s ⟨"completed", sid⟩ := by
  rw [handle_completed]
  refine ⟨?_, ?_, ?_, ?_⟩
  · show (stopPolling (updateProgress s 100 "Processamento concluído!")).progress = 100
    rw [stopPolling_progress]
    rfl
  · show (stopPolling (updateProgress s 100 "Processamento concluído!")).completeCount + 1
      = s.completeCount + 1
    rw [stopPolling_completeCount]
    rfl
  · exact onProcessingComplete_pollingInterval _ _
  · exact run_of_none _ (onProcessingComplete_pollingInterval _ _) resps

/-- C3: an `error` update stops the polling timer and invokes
`onProcessingError` exactly once (the invocation count rises by exactly 1);
the resulting state is terminal: further interval firings change nothing, so
no automatic retry or further polling occurs. -/
theorem C3_error_once (s : State) (sid : String)
    (resps : List (Except String StatusData)) :
    (handleStatusUpdate s ⟨"error", sid⟩).errorCount = s.errorCount + 1 ∧
    (handleStatusUpdate s ⟨"error", sid⟩).pollingInterval = none ∧
    run (handleStatusUpdate s ⟨"error", sid⟩) resps
      = handleStatusUpdate s ⟨"error", sid⟩ := by
  rw [handle_error]
  refine ⟨?_, ?_, ?_⟩
  · show (stopPolling s).errorCount + 1 = s.errorCount + 1
    rw [stopPolling_errorCount]
  · exact onProcessingError_pollingInterval _ _
  · exact run_of_none _ (onProcessingError_pollingInterval _ _) resps

/-- C10: the `error` transition never calls `updateProgress`: the numeric
progress, the bar width/text and the step classifications are exactly those
from before the update, while the bar styling (danger on, animation off), the
status text and the form-enabled state are set. -/
theorem C10_error_frame (s : State) (sid : String) :
    (handleStatusUpdate s ⟨"error", sid⟩).progress = s.progress ∧
    (handleStatusUpdate s ⟨"error", sid⟩).progressText = s.progressText ∧
    (handleStatusUpdate s ⟨"error", sid⟩).steps = s.steps ∧
    (handleStatusUpdate s ⟨"error", sid⟩).barDanger = true ∧
    (handleStatusUpdate s ⟨"error", sid⟩).barAnimated = false ∧
    (handleStatusUpdate s ⟨"error", sid⟩).statusText = "Erro no processamento" ∧
    (handleStatusUpdate s ⟨"error", sid⟩).formEnabled = true := by
  rw [handle_error]
  refine ⟨?_, ?_, ?_, rfl, rfl, rfl, rfl⟩
  · show (stopPolling s).progress = s.progress
    exact stopPolling_progress s
  · show (stopPolling s).progressText = s.progressText
    exact stopPolling_progressText s
  · show (stopPolling s).steps = s.steps
    exact stopPolling_steps s

/-- A `processing` update always lands the progress bar at exactly 60. -/
theorem processing_progress (s : State) (sid : String) :
    (handleStatusUpdate s ⟨"processing", sid⟩).progress = 60 := by
  rw [handle_processing]
  rfl

/-- Progress after any nonempty run of `processing` updates is exactly 60. -/
theorem foldl_processing_progress (sid : String) :
    ∀ (l : List String) (s : State), (∀ x ∈ l, x = "processing") → l ≠ [] →
      (l.foldl (fun st x => handleStatusUpdate st ⟨x, sid⟩) s).progress = 60 := by
  intro l
  induction l with
  | nil => intro s _ hne; exact absurd rfl hne
  | cons a as ih =>
    intro s hall _
    have ha : a = "processing" := hall a (List.mem_cons_self a as)
    subst ha
    show (as.foldl (fun st x => handleStatusUpdate st ⟨x, sid⟩)
        (handleStatusUpdate s ⟨"processing", sid⟩)).progress = 60
    by_cases hcase : as = []
    · subst hcase
      exact processing_progress s sid
    · exact ih (handleStatusUpdate s ⟨"processing", sid⟩)
        (fun x hx => hall x (List.mem_cons_of_mem _ hx)) hcase

/-- C1 counterexample: in the code a `processing` update sets progress to the
constant 60 (`updateProgress(60, ...)`), so a second `processing` update does
not advance progress at all even though 60 is below the claimed soft ceiling
of 90 — there is no per-tick increment and no 90 cap. -/
theorem C1_counterexample :
    (handleStatusUpdate initState ⟨"processing", "sess"⟩).progress = 60 ∧
    (handleStatusUpdate initState ⟨"processing", "sess"⟩).progress < 90 ∧
    ¬ (handleStatusUpdate initState ⟨"processing", "sess"⟩).progress
        < (handleStatusUpdate (handleStatusUpdate initState ⟨"processing", "sess"⟩)
            ⟨"processing", "sess"⟩).progress := by
  refine ⟨rfl, by decide, ?_⟩
  rw [processing_progress, processing_progress]
  decide

/-- C1 amended: every `processing` update sets the progress to the fixed
value 60, so over any nonempty all-`processing` sequence the progress after
each update equals 60 — hence it is non-decreasing across the sequence and
stays strictly below 100 (the theorem applies to every nonempty prefix, so
every intermediate progress value is 60). -/
theorem C1_amended (s : State) (sid : String) (l : List String)
    (hall : ∀ x ∈ l, x = "processing") (hne : l ≠ []) :
    (l.foldl (fun st x => handleStatusUpdate st ⟨x, sid⟩) s).progress = 60 ∧
    (l.foldl (fun st x => handleStatusUpdate st ⟨x, sid⟩) s).progress < 100 := by
  have h := foldl_processing_progress sid l s hall hne
  exact ⟨h, by rw [h]; decide⟩

/-- Witness for the amended C1 on a concrete two-update sequence. -/
theorem C1_amended_witness :
    ((["processing", "processing"].foldl
        (fun st x => handleStatusUpdate st ⟨x, "sess"⟩) initState).progress = 60 ∧
     (["processing", "processing"].foldl
        (fun st x => handleStatusUpdate st ⟨x, "sess"⟩) initState).progress < 100) :=
  C1_amended initState "sess" ["processing", "processing"] (by decide) (by decide)

/-- C4 counterexample: the element with id `step-ocr` (threshold 50, index 2
of the catalog) keeps its prior `completed` class when the percentage drops
to 20, because the source has no else branch resetting a step to pending; the
same percentage 20 yields `pending` from a fresh state, so the classification
is not a pure function of the percentage and the below-window case is not
rendered pending. -/
theorem C4_counterexample :
    (updateStepIndicators (updateStepIndicators initState 100) 20).steps[2]?
      = some StepClass.completed ∧
    (updateStepIndicators initState 20).steps[2]? = some StepClass.pending := by
  decide

/-- Each step's branch logic is idempotent for a fixed percentage. -/
theorem stepUpdate_idem (p t : Nat) (c : StepClass) :
    stepUpdate p t (stepUpdate p t c) = stepUpdate p t c := by
  unfold stepUpdate
  split_ifs <;> rfl

theorem runStepIndicators_idem_aux (p : Nat) :
    ∀ (cat : List (String × Nat)) (cs : List StepClass),
      List.zipWith (fun st c => stepUpdate p st.2 c) cat
          (List.zipWith (fun st c => stepUpdate p st.2 c) cat cs)
        = List.zipWith (fun st c => stepUpdate p st.2 c) cat cs := by
  intro cat
  induction cat with
  | nil => intro cs; rfl
  | cons hd tl ih =>
    intro cs
    cases cs with
    | nil => rfl
    | cons c cs' =>
      simp only [List.zipWith_cons_cons]
      rw [stepUpdate_idem, ih]

theorem runStepIndicators_idem (p : Nat) (cs : List StepClass) :
    runStepIndicators p (runStepIndicators p cs) = runStepIndicators p cs :=
  runStepIndicators_idem_aux p stepsCatalog cs

/-- C4 amended: on every call, a step with `p ≥ t` is classified completed
and a step with `t - 15 ≤ p < t` is classified current; a step below the
window (`p < t - 15`) retains its previous classification instead of being
reset to pending, so the result depends on the prior rendering state.
Calling the update twice with the same percentage from the same prior state
equals calling it once (idempotence). -/
theorem C4_amended (s : State) (p : Nat) :
    updateStepIndicators (updateStepIndicators s p) p = updateStepIndicators s p ∧
    (∀ t c, t ≤ p → stepUpdate p t c = StepClass.completed) ∧
    (∀ t c, p < t → t - 15 ≤ p → stepUpdate p t c = StepClass.current) ∧
    (∀ t c, p < t - 15 → stepUpdate p t c = c) := by
  refine ⟨?_, ?_, ?_, ?_⟩
  · simp [updateStepIndicators, runStepIndicators_idem]
  · intro t c h
    unfold stepUpdate
    rw [if_pos h]
  · intro t c h1 h2
    unfold stepUpdate
    rw [if_neg (by omega), if_pos h2]
  · intro t c h
    unfold stepUpdate
    rw [if_neg (by omega), if_neg (by omega)]

/-- Witness for the amended C4 at percentage 60: threshold 50 completed,
threshold 65 current, threshold 80 keeps its prior (pending) class;
re-running the update at 60 is a no-op. -/
theorem C4_amended_witness :
    updateStepIndicators (updateStepIndicators initState 60) 60
      = updateStepIndicators initState 60 ∧
    stepUpdate 60 50 StepClass.pending = StepClass.completed ∧
    stepUpdate 60 65 StepClass.pending = StepClass.current ∧
    stepUpdate 60 80 StepClass.pending = StepClass.pending := by
  refine ⟨(C4_amended initState 60).1, ?_, ?_, ?_⟩
  · exact (C4_amended initState 60).2.1 50 StepClass.pending (by decide)
  · exact (C4_amended initState 60).2.2.1 65 StepClass.pending (by decide) (by decide)
  · exact (C4_amended initState 60).2.2.2 80 StepClass.pending (by decide)

/-- On a well-formed state, `startPolling` leaves exactly the fresh timer
installed, with the fresh handle stored and the handle counter advanced. -/
theorem startPolling_wf (s : State) (sid : String) (hwf : wellFormedTimers s) :
    (startPolling s sid).timers = [⟨s.nextTimerId, sid⟩] ∧
    (startPolling s sid).pollingInterval = some s.nextTimerId ∧
    (startPolling s sid).nextTimerId = s.nextTimerId + 1 := by
  cases h : s.pollingInterval with
  | none =>
    have ht : s.timers = [] := hwf.1 h
    simp [startPolling, h, ht]
  | some hdl =>
    have hfil : s.timers.filter (fun t => t.id ≠ hdl) = [] := by
      rw [List.filter_eq_nil_iff]
      intro t htmem
      simp [hwf.2 hdl h t htmem]
    simp [startPolling, h, hfil]
    exact hwf.2 hdl h

/-- C5: starting polling for session `A` and then for session `B` (equal or
different) before any tick fires leaves exactly one active timer, polling
session `B` under the fresh handle; session `A`'s timer is cancelled. -/
theorem C5_start_start (s : State) (A B : String) (hwf : wellFormedTimers s) :
    (startPolling (startPolling s A) B).timers = [⟨s.nextTimerId + 1, B⟩] ∧
    (startPolling (startPolling s A) B).pollingInterval
      = some (s.nextTimerId + 1) ∧
    Timer.mk s.nextTimerId A ∉ (startPolling (startPolling s A) B).timers := by
  obtain ⟨h1, h2, h3⟩ := startPolling_wf s A hwf
  have hwf1 : wellFormedTimers (startPolling s A) := by
    constructor
    · intro hnone
      rw [h2] at hnone
      exact absurd hnone (by simp)
    · intro hdl hsome t htmem
      rw [h2] at hsome
      have hh : hdl = s.nextTimerId := (Option.some.inj hsome).symm
      rw [h1] at htmem
      have he : t = ⟨s.nextTimerId, A⟩ := List.mem_singleton.mp htmem
      subst hh
      rw [he]
  obtain ⟨g1, g2, g3⟩ := startPolling_wf (startPolling s A) B hwf1
  rw [h3] at g1 g2
  refine ⟨g1, g2, ?_⟩
  rw [g1]
  intro hmem
  have := List.mem_singleton.mp hmem
  rw [Timer.mk.injEq] at this
  omega

/-- Witness for C5 from the idle initial state with sessions `a` and `b`. -/
theorem C5_start_start_witness :
    (startPolling (startPolling initState "a") "b").timers = [⟨2, "b"⟩] ∧
    (startPolling (startPolling initState "a") "b").pollingInterval = some 2 ∧
    Timer.mk 1 "a" ∉ (startPolling (startPolling initState "a") "b").timers :=
  C5_start_start initState "a" "b" ⟨fun _ => rfl, fun _ hsome => nomatch hsome⟩

end PREVC
